import Mathlib

/-!
Verification of the Notion-to-GitHub blog sync pipeline
(source: notion_to_github.py, class NotionToGitHub).

The Python code works on JSON dictionaries.  The shallow embedding below
replaces each dictionary of known shape by a Lean structure, an absent key
by an Option, and each network call by an explicit response value or
response oracle passed as an argument.  A property value that is present
in the property bag models a non-empty JSON object, which is truthy in
Python, so the Python or-chains over property lookups become Option
orElse chains.
-/

/-- One rich-text span.  The Python code reads only the plain_text key,
with default empty string, so the model keeps just that optional field. -/
structure RichTextItem where
  plain_text : Option String := none
deriving Repr, DecidableEq

/-- One option of a Notion select or multi-select property.  The Python
code reads name with bracket access, so the field is mandatory. -/
structure SelectOption where
  name : String
deriving Repr, DecidableEq

/-- The value under the date key of a date property.  The Python code
reads start with bracket access. -/
structure DateVal where
  start : String
deriving Repr, DecidableEq

/-- A property value from the page property bag.  Each field models the
corresponding key access in page_to_markdown: title with default empty
list, date or select possibly absent, multi_select with a Python
truthiness test that identifies a missing key with an empty list. -/
structure PropVal where
  title : List RichTextItem := []
  date : Option DateVal := none
  multi_select : List SelectOption := []
  select : Option SelectOption := none
deriving Repr, DecidableEq

/-- A page record.  created_time models page.get with default empty
string; the property bag is an association list standing for the JSON
dictionary (keys distinct). -/
structure Page where
  id : String := ""
  properties : List (String × PropVal) := []
  created_time : String := ""
deriving Repr, DecidableEq

/-- A content block.  type models block.get of the type key; the
remaining fields model the keys that block_to_markdown reads inside
block.get(block_type): rich_text and caption with default empty list,
language with default empty string, and the url keys of the file and
external sub-objects as optional strings. -/
structure Block where
  type : Option String := none
  rich_text : List RichTextItem := []
  language : String := ""
  caption : List RichTextItem := []
  file_url : Option String := none
  external_url : Option String := none
deriving Repr, DecidableEq

/-- Concatenation of a list of strings in order, the model of the Python
empty-separator str.join. -/
def joinAll : List String → String
  | [] => ""
  | s :: rest => s ++ joinAll rest

/-- extract_text_from_rich_text: empty (or missing, which the callers
turn into the empty list) input gives the empty string, otherwise the
concatenation of the plain_text of every span, absent plain_text
contributing the empty string. -/
def extract_text_from_rich_text (rich_text : List RichTextItem) : String :=
  if rich_text.isEmpty then ""
  else joinAll (rich_text.map (fun t => t.plain_text.getD ""))

/-- Python or on two optional strings: an empty string is falsy, so it
falls through to the second operand. -/
def pyOrStr (a b : Option String) : Option String :=
  match a with
  | some s => if s = "" then b else some s
  | none => b

/-- Python f-string interpolation of a value that may be None: None is
printed as the literal string None. -/
def pyFormatOpt : Option String → String
  | none => "None"
  | some s => s

/-- Python string repetition, used for the two-space indent of list
items. -/
def repeat_str (s : String) (n : Nat) : String :=
  joinAll (List.replicate n s)

/-- The list of type tags with a dedicated branch in block_to_markdown. -/
def supported_types : List (Option String) :=
  [some "paragraph", some "heading_1", some "heading_2", some "heading_3",
   some "bulleted_list_item", some "numbered_list_item", some "code",
   some "quote", some "divider", some "image"]

/-- block_to_markdown: dispatch on the type tag through the elif chain of
the Python source; any tag without a branch leaves the initial empty
string untouched. -/
def block_to_markdown (block : Block) (level : Nat) : String :=
  if block.type = some "paragraph" then
    extract_text_from_rich_text block.rich_text ++ "\n\n"
  else if block.type = some "heading_1" then
    "# " ++ extract_text_from_rich_text block.rich_text ++ "\n\n"
  else if block.type = some "heading_2" then
    "## " ++ extract_text_from_rich_text block.rich_text ++ "\n\n"
  else if block.type = some "heading_3" then
    "### " ++ extract_text_from_rich_text block.rich_text ++ "\n\n"
  else if block.type = some "bulleted_list_item" then
    repeat_str "  " level ++ "- " ++ extract_text_from_rich_text block.rich_text ++ "\n"
  else if block.type = some "numbered_list_item" then
    repeat_str "  " level ++ "1. " ++ extract_text_from_rich_text block.rich_text ++ "\n"
  else if block.type = some "code" then
    "```" ++ block.language ++ "\n" ++ extract_text_from_rich_text block.rich_text ++ "\n```\n\n"
  else if block.type = some "quote" then
    "> " ++ extract_text_from_rich_text block.rich_text ++ "\n\n"
  else if block.type = some "divider" then
    "---\n\n"
  else if block.type = some "image" then
    "![" ++ extract_text_from_rich_text block.caption ++ "]("
      ++ pyFormatOpt (pyOrStr block.file_url block.external_url) ++ ")\n\n"
  else ""

/-- The body-building loop of page_to_markdown: content starts empty and
each block appends its fragment (with the default nesting level 0). -/
def render_blocks (blocks : List Block) : String :=
  blocks.foldl (fun content block => content ++ block_to_markdown block 0) ""

/-- Dictionary lookup in the property bag, the model of properties.get:
first pair with the requested key, if any. -/
def pget (props : List (String × PropVal)) (name : String) : Option PropVal :=
  (props.find? (fun kv => kv.1 == name)).map (fun kv => kv.2)

/-- Python or on two property lookups.  A present property value models a
non-empty JSON object, hence is truthy, so the first present operand
wins. -/
def pyOr (a b : Option PropVal) : Option PropVal :=
  match a with
  | some v => some v
  | none => b

/-- The title alias chain of page_to_markdown: Name, then Title, then the
Korean alias. -/
def title_chain (page : Page) : Option PropVal :=
  pyOr (pget page.properties "Name")
    (pyOr (pget page.properties "Title") (pget page.properties "제목"))

/-- The date alias chain of page_to_markdown: Date, then Created, then
the Korean alias. -/
def date_chain (page : Page) : Option PropVal :=
  pyOr (pget page.properties "Date")
    (pyOr (pget page.properties "Created") (pget page.properties "날짜"))

/-- The tags alias chain of page_to_markdown: Tags, then the Korean
alias. -/
def tags_chain (page : Page) : Option PropVal :=
  pyOr (pget page.properties "Tags") (pget page.properties "태그")

/-- The category alias chain of page_to_markdown: Category, then the
Korean alias. -/
def category_chain (page : Page) : Option PropVal :=
  pyOr (pget page.properties "Category") (pget page.properties "카테고리")

/-- Title extraction of page_to_markdown: first present title alias gives
the concatenated plain text of its title spans, otherwise the literal
Untitled placeholder. -/
def page_title (page : Page) : String :=
  match title_chain page with
  | some p => extract_text_from_rich_text p.title
  | none => "Untitled"

/-- Date extraction of page_to_markdown: the start of the date value of
the first present date alias; if no alias is present, or the first
present one carries no truthy date value, the first 10 characters of
created_time. -/
def page_date (page : Page) : String :=
  match date_chain page with
  | some p =>
    match p.date with
    | some d => d.start
    | none => page.created_time.take 10
  | none => page.created_time.take 10

/-- Tag extraction of page_to_markdown: the option names of the
multi_select of the first present tags alias when that list is truthy
(non-empty), otherwise the empty list. -/
def page_tags (page : Page) : List String :=
  match tags_chain page with
  | some p => if p.multi_select.isEmpty then [] else p.multi_select.map (fun t => t.name)
  | none => []

/-- Category extraction of page_to_markdown: the name of the select
option of the first present category alias when a truthy select value is
present, otherwise the empty string. -/
def page_category (page : Page) : String :=
  match category_chain page with
  | some p =>
    match p.select with
    | some s => s.name
    | none => ""
  | none => ""

/-- The front matter dictionary built by page_to_markdown. -/
structure FrontMatter where
  title : String
  date : String
  categories : List String
  tags : List String
deriving Repr, DecidableEq

/-- The front matter assembled at the end of page_to_markdown: the
categories list is a singleton of the category when the category string
is truthy, else empty. -/
def page_front_matter (page : Page) : FrontMatter :=
  { title := page_title page
    date := page_date page
    categories := if page_category page = "" then [] else [page_category page]
    tags := page_tags page }

/-- page_to_markdown, with the block list of the page (fetched by
get_page_content in the source) passed explicitly: returns the title,
the rendered body and the front matter. -/
def page_to_markdown (page : Page) (blocks : List Block) :
    String × String × FrontMatter :=
  (page_title page, render_blocks blocks, page_front_matter page)

/-- A single quote character as a string, used by the Python repr of a
string value. -/
def squote : String := String.singleton (Char.ofNat 39)

/-- Python repr of a string, for names without quote, backslash or
control characters (the category names the pipeline handles): the text
between single quotes. -/
def pyStrRepr (s : String) : String := squote ++ s ++ squote

/-- Python repr of a list of strings, as produced by f-string
interpolation of the categories list. -/
def pyListRepr (l : List String) : String :=
  "[" ++ String.intercalate ", " (l.map pyStrRepr) ++ "]"

/-- create_jekyll_post: the fixed header prefix, the conditional
categories and tags lines (present only when the corresponding list is
truthy), the closing marker and the body.  The title argument of the
source is unused there as well. -/
def create_jekyll_post (_title content : String) (front_matter : FrontMatter) : String :=
  let y1 := "---\n" ++ "layout: post\n"
    ++ "title: \"" ++ front_matter.title ++ "\"\n"
    ++ "date: " ++ front_matter.date ++ "\n"
  let y2 := if front_matter.categories.isEmpty then y1
    else y1 ++ "categories: " ++ pyListRepr front_matter.categories ++ "\n"
  let y3 := if front_matter.tags.isEmpty then y2
    else y2 ++ "tags: [" ++ String.intercalate " " front_matter.tags ++ "]\n"
  y3 ++ "---\n\n" ++ content

/-- The header of a Jekyll post as an ordered list of pairs of a key and
its full emitted line, the specification-level view of create_jekyll_post
used to state the fixed key order and the conditional presence of the
categories and tags keys. -/
def header_fields (fm : FrontMatter) : List (String × String) :=
  [("layout", "layout: post\n"),
   ("title", "title: \"" ++ fm.title ++ "\"\n"),
   ("date", "date: " ++ fm.date ++ "\n")]
  ++ (if fm.categories.isEmpty then []
      else [("categories", "categories: " ++ pyListRepr fm.categories ++ "\n")])
  ++ (if fm.tags.isEmpty then []
      else [("tags", "tags: [" ++ String.intercalate " " fm.tags ++ "]\n")])

/-- Serialization of a keyed header line list between the two header
markers. -/
def render_header (fields : List (String × String)) : String :=
  "---\n" ++ joinAll (fields.map (fun kv => kv.2)) ++ "---\n\n"

/-- A word character of the regular expression \x5cw: alphanumeric or
underscore (the Unicode letter classes of Python are abstracted to the
alphanumeric predicate). -/
def is_word_char (c : Char) : Bool := c.isAlphanum || c == '_'

/-- A whitespace character of the regular expression \x5cs. -/
def is_space_char (c : Char) : Bool := c.isWhitespace

/-- A character matched by the character class of hyphen and whitespace. -/
def is_dash_space (c : Char) : Bool := c == '-' || is_space_char c

/-- The first substitution of create_filename: every character outside
word characters, whitespace and hyphen is deleted (replaced by the empty
string). -/
def sub_remove_disallowed (l : List Char) : List Char :=
  l.filter (fun c => is_word_char c || is_space_char c || c == '-')

/-- The second substitution of create_filename: each maximal run of
hyphens and whitespace is replaced by a single hyphen.  The boolean
records whether the previous character belonged to the current run, so
that only the first character of a run emits the hyphen. -/
def sub_collapse_runs : Bool → List Char → List Char
  | _, [] => []
  | in_run, c :: cs =>
    if is_dash_space c then
      (if in_run then [] else ['-']) ++ sub_collapse_runs true cs
    else
      c :: sub_collapse_runs false cs

/-- Python strip with hyphen argument: remove leading and trailing
hyphens. -/
def strip_hyphens (l : List Char) : List Char :=
  ((l.dropWhile (fun c => c == '-')).reverse.dropWhile (fun c => c == '-')).reverse

/-- create_filename: lower-case the title, delete disallowed characters,
collapse runs of whitespace and hyphens, trim hyphens, and compose the
date, the slug and the md extension. -/
def create_filename (date title : String) : String :=
  let lowered := title.data.map Char.toLower
  let safe1 := sub_remove_disallowed lowered
  let safe2 := sub_collapse_runs false safe1
  let safe3 := strip_hyphens safe2
  date ++ "-" ++ String.mk safe3 ++ ".md"

/-- Run-based reading of the collapsing substitution, following the
wording of the specification: each maximal run of whitespace and hyphens
becomes one hyphen.  Proved equal to sub_collapse_runs below. -/
def collapse_runs_spec : List Char → List Char
  | [] => []
  | c :: cs =>
    if is_dash_space c then '-' :: collapse_runs_spec (cs.dropWhile is_dash_space)
    else c :: collapse_runs_spec cs
termination_by l => l.length
decreasing_by
  · exact Nat.lt_succ_of_le (List.dropWhile_suffix _).sublist.length_le
  · simp

/-- The slug of a title as worded by the specification: lower-case,
delete characters outside word characters, whitespace and hyphen,
collapse each run of whitespace and hyphens into a single hyphen, trim
leading and trailing hyphens. -/
def slug_spec (title : String) : String :=
  String.mk (strip_hyphens (collapse_runs_spec (sub_remove_disallowed (title.data.map Char.toLower))))

/-- The response of the GitHub contents lookup used by get_file_sha: a
status code and the sha of the response body, if any. -/
structure LookupResponse where
  status_code : Nat
  sha : Option String := none
deriving Repr, DecidableEq

/-- get_file_sha: the sha of the response body when the status is 200,
None for every other status. -/
def get_file_sha (response : LookupResponse) : Option String :=
  if response.status_code = 200 then response.sha else none

/-- The remote-file lookup as worded by the specification: 200 yields the
version token, 404 yields absence, any other status is an error
propagated to the caller.  Stated for comparison with get_file_sha. -/
def resolveExisting_spec (response : LookupResponse) : Except Nat (Option String) :=
  if response.status_code = 200 then Except.ok response.sha
  else if response.status_code = 404 then Except.ok none
  else Except.error response.status_code

/-- The response of the content-database query used by
get_published_pages: a status code and the results list of the body. -/
structure QueryResponse where
  status_code : Nat
  results : List Page := []
deriving Repr, DecidableEq

/-- get_published_pages: raise_for_status raises HTTPError for every
status of 400 and above, otherwise the results list (with default empty
list) is returned. -/
def get_published_pages (response : QueryResponse) : Except String (List Page) :=
  if 400 ≤ response.status_code then Except.error "HTTPError"
  else Except.ok response.results

/-- The body of the per-page try of sync: fetch the blocks of the page
(the get_page_content call, given as an oracle from page id to blocks or
error), convert, build the Jekyll post, derive the file path, and push
(the push_to_github call, given as an oracle from file path and content
to success or error).  The result is the pushed file path. -/
def process_page (fetch_blocks : String → Except String (List Block))
    (push_file : String → String → Except String Unit)
    (blog_posts_path : String) (page : Page) : Except String String :=
  match fetch_blocks page.id with
  | Except.error e => Except.error e
  | Except.ok blocks =>
    let r := page_to_markdown page blocks
    let post_content := create_jekyll_post r.1 r.2.1 r.2.2
    let filename := create_filename r.2.2.date r.1
    let filepath := blog_posts_path ++ "/" ++ filename
    match push_file filepath post_content with
    | Except.error e => Except.error e
    | Except.ok _ => Except.ok filepath

/-- The outcome of a sync run: the file paths pushed, the diagnostics of
the failed pages, and whether the final completion message was reached. -/
structure SyncOutcome where
  published : List String
  failures : List String
  completed : Bool
deriving Repr, DecidableEq

/-- The per-page loop of sync: each failure is caught, recorded as a
diagnostic, and the loop continues with the next page. -/
def sync_loop (process : Page → Except String String) :
    List Page → List String × List String
  | [] => ([], [])
  | page :: rest =>
    let r := sync_loop process rest
    match process page with
    | Except.ok filepath => (filepath :: r.1, r.2)
    | Except.error e => (r.1, e :: r.2)

/-- A sync run over an already fetched page list: the loop never aborts,
so the completion message at the end of sync is always reached. -/
def sync_run (process : Page → Except String String) (pages : List Page) :
    SyncOutcome :=
  let r := sync_loop process pages
  { published := r.1, failures := r.2, completed := true }

/-- sync: the initial listing call is outside the try of the loop, so a
listing failure propagates and nothing else runs; otherwise the per-page
loop processes every fetched page. -/
def sync (query_response : QueryResponse)
    (fetch_blocks : String → Except String (List Block))
    (push_file : String → String → Except String Unit)
    (blog_posts_path : String) : Except String SyncOutcome :=
  match get_published_pages query_response with
  | Except.error e => Except.error e
  | Except.ok pages =>
    Except.ok (sync_run (process_page fetch_blocks push_file blog_posts_path) pages)

/-- The value of a successful per-page result, if any. -/
def except_ok : Except String String → Option String
  | Except.ok v => some v
  | Except.error _ => none

/-- The diagnostic of a failed per-page result, if any. -/
def except_error : Except String String → Option String
  | Except.error e => some e
  | Except.ok _ => none

/-- A block of an unsupported kind, for the scenario of claim C1. -/
def c1_unsupported_block : Block := { type := some "toggle" }

/-- A heading-2 block with text Intro, for the scenario of claim C1. -/
def c1_heading2_block : Block :=
  { type := some "heading_2", rich_text := [{ plain_text := some "Intro" }] }

/-- A page whose Name property is present but has no title spans, and
whose creation timestamp is empty: the counterexample of claim C3. -/
def c3_page : Page :=
  { id := "c3", properties := [("Name", { title := [] })], created_time := "" }

/-- A page with no properties at all, the witness input for the amended
claim C3 fallbacks. -/
def c3_empty_page : Page :=
  { id := "c3e", properties := [], created_time := "2024-03-03T12:00:00.000Z" }

/-- The canonical Name property of the page of claim C4. -/
def c4_name_prop : PropVal := { title := [{ plain_text := some "English Title" }] }

/-- The localized title alias of the page of claim C4. -/
def c4_korean_prop : PropVal := { title := [{ plain_text := some "Korean Title" }] }

/-- The canonical Date property of the page of claim C4. -/
def c4_date_prop : PropVal := { date := some { start := "2024-05-05" } }

/-- The localized date alias of the page of claim C4. -/
def c4_korean_date_prop : PropVal := { date := some { start := "2023-01-01" } }

/-- A page carrying both the canonical and the localized alias for the
title and the date fields, the localized aliases listed first in the
bag: the witness input of claim C4. -/
def c4_page : Page :=
  { id := "c4"
    properties :=
      [("제목", c4_korean_prop), ("Name", c4_name_prop),
       ("날짜", c4_korean_date_prop), ("Date", c4_date_prop)]
    created_time := "2022-02-02T00:00:00.000Z" }

/-- First page of the three-page scenario of claim C7. -/
def c7_page1 : Page :=
  { id := "1", properties := [("Name", { title := [{ plain_text := some "one" }] })]
    created_time := "2024-01-01T00:00:00.000Z" }

/-- Second page of the three-page scenario of claim C7; its publish call
fails. -/
def c7_page2 : Page :=
  { id := "2", properties := [("Name", { title := [{ plain_text := some "two" }] })]
    created_time := "2024-01-01T00:00:00.000Z" }

/-- Third page of the three-page scenario of claim C7. -/
def c7_page3 : Page :=
  { id := "3", properties := [("Name", { title := [{ plain_text := some "three" }] })]
    created_time := "2024-01-01T00:00:00.000Z" }

/-- Block-fetch oracle of the scenario of claim C7: every page has an
empty block list. -/
def c7_fetch : String → Except String (List Block) := fun _ => Except.ok []

/-- Push oracle of the scenario of claim C7: the push of the second page
raises, every other push succeeds. -/
def c7_push : String → String → Except String Unit := fun filepath _ =>
  if filepath = "_posts/2024-01-01-two.md" then Except.error "publish failed"
  else Except.ok ()

/-- An image block with a caption and neither url, the witness input of
claim C9. -/
def c9_block : Block :=
  { type := some "image", caption := [{ plain_text := some "fig" }] }

/-- Two strings with the same character list are equal. -/
theorem string_data_ext (a b : String) (h : a.data = b.data) : a = b := by
  cases a; cases b; simp_all

/-- Concatenation distributes over list append. -/
theorem joinAll_append (a b : List String) :
    joinAll (a ++ b) = joinAll a ++ joinAll b := by
  induction a with
  | nil => simp [joinAll, String.empty_append]
  | cons s rest ih => simp [joinAll, ih, String.append_assoc]

/-- extract_text_from_rich_text agrees with the plain concatenation view
also on the empty list. -/
theorem extract_text_eq_joinAll (l : List RichTextItem) :
    extract_text_from_rich_text l
      = joinAll (l.map (fun t => t.plain_text.getD "")) := by
  cases l <;> rfl

/-- Appending fragments one by one from an accumulator equals the
accumulator followed by the concatenation of all fragments. -/
theorem foldl_append_join (f : Block → String) (l : List Block) (acc : String) :
    l.foldl (fun c b => c ++ f b) acc = acc ++ joinAll (l.map f) := by
  induction l generalizing acc with
  | nil => simp [joinAll, String.append_empty]
  | cons b bs ih => simp [joinAll, ih, String.append_assoc]

/-- The body loop of page_to_markdown concatenates the fragments of the
blocks in source order. -/
theorem render_blocks_eq_joinAll (blocks : List Block) :
    render_blocks blocks = joinAll (blocks.map (fun b => block_to_markdown b 0)) := by
  have h := foldl_append_join (fun b => block_to_markdown b 0) blocks ""
  simpa [render_blocks, String.empty_append] using h

/-- Inside a run, the collapsing substitution skips to the end of the
run. -/
theorem sub_collapse_runs_true (cs : List Char) :
    sub_collapse_runs true cs = sub_collapse_runs false (cs.dropWhile is_dash_space) := by
  induction cs with
  | nil => rfl
  | cons c cs ih =>
    cases h : is_dash_space c <;>
      simp [sub_collapse_runs, List.dropWhile, h, ih]

/-- The run-based reading of the collapsing substitution agrees with the
flag-based one of create_filename. -/
theorem collapse_runs_spec_eq (l : List Char) :
    collapse_runs_spec l = sub_collapse_runs false l := by
  induction l using collapse_runs_spec.induct with
  | case1 => simp [collapse_runs_spec, sub_collapse_runs]
  | case2 c cs h ih =>
    simp [collapse_runs_spec, sub_collapse_runs, h, ih, sub_collapse_runs_true]
  | case3 c cs h ih =>
    simp [collapse_runs_spec, sub_collapse_runs, h, ih]

/-- The loop of sync sorts every page by its own outcome: successes into
the published list, diagnostics into the failure list, order preserved. -/
theorem sync_loop_eq (process : Page → Except String String) (pages : List Page) :
    sync_loop process pages
      = (pages.filterMap (fun p => except_ok (process p)),
         pages.filterMap (fun p => except_error (process p))) := by
  induction pages with
  | nil => rfl
  | cons p ps ih =>
    cases h : process p <;> simp [sync_loop, except_ok, except_error, h, ih]

/-- Claim C1: block_to_markdown is a pure total function of the block; a
block whose type tag is outside the supported set yields exactly the
empty string; the rendered body is the concatenation of the fragments of
the blocks in source order; and a block list of one unsupported block
followed by one heading-2 block with text Intro renders to exactly the
heading-2 fragment. -/
theorem C1_block_renderer :
    (∀ (b : Block) (level : Nat),
      b.type ∉ supported_types → block_to_markdown b level = "")
    ∧ (∀ blocks : List Block,
        render_blocks blocks = joinAll (blocks.map (fun b => block_to_markdown b 0)))
    ∧ render_blocks [c1_unsupported_block, c1_heading2_block] = "## Intro\n\n" := by
  refine ⟨?_, render_blocks_eq_joinAll, rfl⟩
  intro b level h
  simp only [supported_types, List.mem_cons, List.not_mem_nil, or_false, not_or] at h
  obtain ⟨h1, h2, h3, h4, h5, h6, h7, h8, h9, h10⟩ := h
  simp [block_to_markdown, h1, h2, h3, h4, h5, h6, h7, h8, h9, h10]

/-- Witness for C1: a concrete unsupported block satisfies the hypothesis
and renders to the empty string. -/
theorem C1_block_renderer_witness :
    c1_unsupported_block.type ∉ supported_types
    ∧ block_to_markdown c1_unsupported_block 0 = "" :=
  ⟨by decide, C1_block_renderer.1 c1_unsupported_block 0 (by decide)⟩

/-- Claim C2: create_filename is deterministic, computes the slug by
lower-casing, deleting disallowed characters, collapsing runs of
whitespace and hyphens into one hyphen and trimming hyphens, and returns
the date, a hyphen, the slug and the md extension; punctuation is
deleted, not substituted, as the concrete input shows. -/
theorem C2_create_filename :
    (∀ date title : String, create_filename date title = create_filename date title)
    ∧ (∀ date title : String,
        create_filename date title = date ++ "-" ++ slug_spec title ++ ".md")
    ∧ create_filename "2024-01-01" "Hello, World!" = "2024-01-01-hello-world.md" := by
  refine ⟨fun _ _ => rfl, fun date title => ?_, rfl⟩
  simp [create_filename, slug_spec, collapse_runs_spec_eq]

/-- Counterexample to claim C3: a page whose Name property is present but
carries no title spans, and whose creation timestamp is empty, yields an
empty title and an empty date in the front matter. -/
theorem C3_counterexample :
    (page_to_markdown c3_page []).2.2.title = ""
    ∧ (page_to_markdown c3_page []).2.2.date = "" :=
  ⟨rfl, rfl⟩

/-- Claim C3 as amended: the Untitled placeholder is used exactly when no
title alias is present (a present title property may still yield an
empty title), and the date falls back to the first 10 characters of the
creation timestamp when no date alias is present or the first present
date alias carries no date value (so the date may be empty when the
creation timestamp is). -/
theorem C3_front_matter_fallbacks (page : Page) (blocks : List Block) :
    (title_chain page = none → (page_to_markdown page blocks).2.2.title = "Untitled")
    ∧ (date_chain page = none →
        (page_to_markdown page blocks).2.2.date = page.created_time.take 10)
    ∧ (∀ p, date_chain page = some p → p.date = none →
        (page_to_markdown page blocks).2.2.date = page.created_time.take 10) := by
  refine ⟨fun h => ?_, fun h => ?_, fun p hp hd => ?_⟩
  · simp [page_to_markdown, page_front_matter, page_title, h]
  · simp [page_to_markdown, page_front_matter, page_date, h]
  · simp [page_to_markdown, page_front_matter, page_date, hp, hd]

/-- Witness for the amended C3: a page with an empty property bag gets
the Untitled placeholder. -/
theorem C3_front_matter_fallbacks_witness :
    title_chain c3_empty_page = none
    ∧ (page_to_markdown c3_empty_page []).2.2.title = "Untitled" :=
  ⟨rfl, (C3_front_matter_fallbacks c3_empty_page []).1 rfl⟩

/-- Claim C4: metadata extraction takes the first present alias in
enumeration order, for the title (Name, Title, Korean alias), the date
(Date first), the tags (Tags first) and the category (Category first);
in particular a present canonical name decides the field whatever the
localized alias holds. -/
theorem C4_alias_precedence (page : Page) :
    (∀ p, pget page.properties "Name" = some p →
        page_title page = extract_text_from_rich_text p.title)
    ∧ (pget page.properties "Name" = none →
        ∀ p, pget page.properties "Title" = some p →
        page_title page = extract_text_from_rich_text p.title)
    ∧ (pget page.properties "Name" = none → pget page.properties "Title" = none →
        ∀ p, pget page.properties "제목" = some p →
        page_title page = extract_text_from_rich_text p.title)
    ∧ (∀ p, pget page.properties "Date" = some p →
        page_date page = (match p.date with
          | some d => d.start
          | none => page.created_time.take 10))
    ∧ (∀ p, pget page.properties "Tags" = some p →
        page_tags page = p.multi_select.map (fun t => t.name))
    ∧ (∀ p, pget page.properties "Category" = some p →
        page_category page = (match p.select with
          | some s => s.name
          | none => "")) := by
  refine ⟨fun p h => ?_, fun h1 p h => ?_, fun h1 h2 p h => ?_,
    fun p h => ?_, fun p h => ?_, fun p h => ?_⟩
  · simp [page_title, title_chain, pyOr, h]
  · simp [page_title, title_chain, pyOr, h1, h]
  · simp [page_title, title_chain, pyOr, h1, h2, h]
  · simp [page_date, date_chain, pyOr, h]
  · rcases hm : p.multi_select with _ | ⟨a, as⟩ <;>
      simp [page_tags, tags_chain, pyOr, h, hm]
  · simp [page_category, category_chain, pyOr, h]

/-- Witness for C4: on a page carrying both canonical and localized
aliases for the title and the date, with the localized ones listed
first, the canonical names decide both fields. -/
theorem C4_alias_precedence_witness :
    page_title c4_page = "English Title" ∧ page_date c4_page = "2024-05-05" :=
  ⟨((C4_alias_precedence c4_page).1 c4_name_prop rfl).trans rfl,
   ((C4_alias_precedence c4_page).2.2.2.1 c4_date_prop rfl).trans rfl⟩

/-- Claim C5: create_jekyll_post emits the header keys in the fixed order
layout, title (quoted), date, categories, tags between the two header
markers, and the categories and tags keys are present exactly when the
corresponding list is non-empty. -/
theorem C5_jekyll_header (title content : String) (fm : FrontMatter) :
    create_jekyll_post title content fm = render_header (header_fields fm) ++ content
    ∧ (header_fields fm).map Prod.fst
        = ["layout", "title", "date"]
          ++ (if fm.categories.isEmpty then [] else ["categories"])
          ++ (if fm.tags.isEmpty then [] else ["tags"])
    ∧ ("categories" ∈ (header_fields fm).map Prod.fst ↔ fm.categories ≠ [])
    ∧ ("tags" ∈ (header_fields fm).map Prod.fst ↔ fm.tags ≠ []) := by
  obtain ⟨t, d, cats, tags⟩ := fm
  refine ⟨?_, ?_, ?_, ?_⟩
  · apply string_data_ext
    cases cats <;> cases tags <;>
      simp [create_jekyll_post, header_fields, render_header, joinAll,
        String.data_append, List.append_assoc]
  · cases cats <;> cases tags <;> simp [header_fields]
  · cases cats <;> simp [header_fields]
  · cases tags <;> cases cats <;> simp [header_fields]

/-- Counterexample to claim C6: a server-error status is treated exactly
like not-found (the function yields absence), where the specification
reading demands an error for any status other than 200 and 404. -/
theorem C6_counterexample :
    get_file_sha { status_code := 500 } = none
    ∧ resolveExisting_spec { status_code := 500 } = Except.error 500 :=
  ⟨rfl, rfl⟩

/-- Claim C6 as amended: get_file_sha returns the version token of the
response exactly when the status is 200, and returns None, read as
absence, for every other status, including 404 and every error status;
no status is propagated as an error. -/
theorem C6_get_file_sha (r : LookupResponse) :
    (r.status_code = 200 → get_file_sha r = r.sha)
    ∧ (r.status_code ≠ 200 → get_file_sha r = none) := by
  constructor <;> intro h <;> simp [get_file_sha, h]

/-- Witness for the amended C6 at a success and at a not-found status. -/
theorem C6_get_file_sha_witness :
    get_file_sha { status_code := 200, sha := some "abc123" } = some "abc123"
    ∧ get_file_sha { status_code := 404 } = none :=
  ⟨(C6_get_file_sha { status_code := 200, sha := some "abc123" }).1 rfl,
   (C6_get_file_sha { status_code := 404 }).2 (by decide)⟩

/-- Claim C7: each page is processed independently: a failing page only
adds its diagnostic while every other page is still processed, and the
run always reaches its completion state; in the concrete three-page run
whose second publish fails, pages one and three are published, one
failure is logged and the run completes. -/
theorem C7_failure_isolation :
    (∀ (process : Page → Except String String) (pages : List Page),
      (sync_run process pages).published
          = pages.filterMap (fun p => except_ok (process p))
        ∧ (sync_run process pages).failures
          = pages.filterMap (fun p => except_error (process p))
        ∧ (sync_run process pages).completed = true)
    ∧ sync { status_code := 200, results := [c7_page1, c7_page2, c7_page3] }
        c7_fetch c7_push "_posts"
      = Except.ok
          { published := ["_posts/2024-01-01-one.md", "_posts/2024-01-01-three.md"],
            failures := ["publish failed"], completed := true } := by
  refine ⟨fun process pages => ?_, rfl⟩
  simp [sync_run, sync_loop_eq]

/-- Claim C8: when the initial listing call fails (status 400 or above),
sync propagates the error and performs no per-page processing: the
result does not depend on the per-page oracles. -/
theorem C8_listing_failure_fatal (resp : QueryResponse)
    (fetch1 fetch2 : String → Except String (List Block))
    (push1 push2 : String → String → Except String Unit)
    (path1 path2 : String) (h : 400 ≤ resp.status_code) :
    sync resp fetch1 push1 path1 = Except.error "HTTPError"
    ∧ sync resp fetch1 push1 path1 = sync resp fetch2 push2 path2 := by
  constructor <;> simp [sync, get_published_pages, h]

/-- Witness for C8 at a concrete 503 listing response. -/
theorem C8_listing_failure_fatal_witness :
    (400 : Nat) ≤ 503
    ∧ sync { status_code := 503, results := [{ id := "x" }] }
        (fun _ => Except.ok []) (fun _ _ => Except.ok ()) "_posts"
      = Except.error "HTTPError" :=
  ⟨by decide,
   (C8_listing_failure_fatal { status_code := 503, results := [{ id := "x" }] }
      (fun _ => Except.ok []) (fun _ => Except.ok [])
      (fun _ _ => Except.ok ()) (fun _ _ => Except.ok ())
      "_posts" "_posts" (by decide)).1⟩

/-- Claim C9: an image block with neither a hosted-file url nor an
external url renders, without failing and without yielding the empty
fragment, to the image fragment whose url position holds the literal
string None. -/
theorem C9_image_without_url (b : Block) (level : Nat)
    (ht : b.type = some "image") (hf : b.file_url = none) (he : b.external_url = none) :
    block_to_markdown b level
      = "![" ++ extract_text_from_rich_text b.caption ++ "](None)\n\n" := by
  simp [block_to_markdown, ht, hf, he, pyOrStr, pyFormatOpt, String.append_assoc]

/-- Witness for C9: a concrete image block with a caption and no urls. -/
theorem C9_image_without_url_witness :
    block_to_markdown c9_block 0 = "![fig](None)\n\n" :=
  (C9_image_without_url c9_block 0 rfl rfl rfl).trans rfl

/-- Claim C10: extract_text_from_rich_text is total: the empty list
yields the empty string, the result is the in-order concatenation of the
plain text of the spans, and a span lacking the plain-text field
contributes the empty string. -/
theorem C10_extract_text_total :
    extract_text_from_rich_text [] = ""
    ∧ (∀ spans : List RichTextItem,
        extract_text_from_rich_text spans
          = joinAll (spans.map (fun t => t.plain_text.getD "")))
    ∧ (∀ (pre post : List RichTextItem) (s : RichTextItem), s.plain_text = none →
        extract_text_from_rich_text (pre ++ s :: post)
          = extract_text_from_rich_text pre ++ extract_text_from_rich_text post) := by
  refine ⟨rfl, extract_text_eq_joinAll, fun pre post s h => ?_⟩
  simp [extract_text_eq_joinAll, joinAll_append, joinAll, h,
    String.empty_append, String.append_assoc]

/-- Witness for C10: a span without plain text between two ordinary spans
contributes nothing. -/
theorem C10_extract_text_total_witness :
    ({ plain_text := none } : RichTextItem).plain_text = none
    ∧ extract_text_from_rich_text
        ([{ plain_text := some "a" }] ++ { plain_text := none } :: [{ plain_text := some "b" }])
      = "ab" :=
  ⟨rfl, (C10_extract_text_total.2.2 [{ plain_text := some "a" }] [{ plain_text := some "b" }]
      { plain_text := none } rfl).trans rfl⟩
